import Mathlib

/-!
# Employee Management System backend — verification of the authorization
and account-security core

Shallow embedding of the Node/Express backend in
`src/models/staff.js`, `src/utils/roleUtils.js` (shipped inside
`src/config/db.js`), `src/controllers/userController.js`,
`src/controllers/authController.js`, `src/controllers/activityController.js`,
`src/models/department.js` and the route middleware
(`role.middleware.js`, `auth.middleware.js`).

Mongo documents become Lean structures; `_id` references become `Nat`
identifiers; timestamps become `Nat` clock values; `findOne`/`findById`
become `List.find?` over an explicit store; every fallible controller is a
total function into `Except`.
-/

namespace EMS

/-- The `role` enum of the user schema (`staff.js`):
`['SUPER_ADMIN', 'LINE_MANAGER', 'STAFF']`. -/
inductive Role
  | SUPER_ADMIN
  | LINE_MANAGER
  | STAFF
deriving DecidableEq, Repr

/-- A user document (`staff.js` schema).  `_id` is `id : Nat`;
`reportsTo`/`department` are nullable references; `Date` fields are
`Option Nat` clock values. -/
structure User where
  id : Nat
  id_card : String
  email : String
  password : String
  first_name : String
  last_name : String
  region : String
  branch : String
  department : Option Nat
  position : String
  role : Role
  reportsTo : Option Nat
  isVerified : Bool
  loginAttempts : Nat
  isLocked : Bool
  lockedAt : Option Nat
  lockedReason : Option String
  lastFailedLoginAt : Option Nat
  isAdmin : Bool
  is_staff : Bool
  is_active : Bool
deriving DecidableEq, Repr

/-- A department document (`models/department.js`).  The schema declares
exactly `name`, `code`, `description`, `isActive` (plus timestamps) —
in particular it declares **no** `lineManager` path. -/
structure Department where
  id : Nat
  name : String
  code : String
  description : String
  isActive : Bool
deriving DecidableEq, Repr

/-- Reading `department.lineManager` as `userController.js` does
(lines 354, 429–437).  The schema in `models/department.js` has no
`lineManager` path and nothing in the repository ever writes one, so under
Mongoose strict mode this property read is `undefined` on every document:
the embedding returns `none` for every department. -/
def Department.lineManager (_d : Department) : Option Nat := none

/-- Embeds `User.findById` (first match on `_id`). -/
def findUserById (users : List User) (i : Nat) : Option User :=
  users.find? (fun u => decide (u.id = i))

/-- Embeds `User.findOne({ id_card })` (first match on `id_card`). -/
def findUserByIdCard (users : List User) (c : String) : Option User :=
  users.find? (fun u => decide (u.id_card = c))

/-- Embeds `Department.findById`. -/
def findDepartmentById (departments : List Department) (i : Nat) : Option Department :=
  departments.find? (fun d => decide (d.id = i))

/-! ## AccountSecurityState: the failed-login / lockout machine
(`staff.js` statics `failedLogin`, `successfulLogin`). -/

/-- Embeds `userSchema.statics.failedLogin` (staff.js:159–183) applied to an
already-fetched user at clock time `t`.  Returns the updated user together
with the value the JS function returns to `loginUser`: `some lockedUser`
when the account is (or just became) locked, `none` (JS `null`) otherwise. -/
def failedLogin (t : Nat) (u : User) : User × Option User :=
  if u.isLocked then (u, some u)
  else
    let u1 := { u with loginAttempts := u.loginAttempts + 1, lastFailedLoginAt := some t }
    if u1.loginAttempts ≥ 3 then
      let u2 := { u1 with
        isLocked := true
        lockedAt := some t
        lockedReason := some "3 consecutive failed login attempts"
        loginAttempts := 0 }
      (u2, some u2)
    else (u1, none)

/-- Embeds `userSchema.statics.successfulLogin` (staff.js:186–195). -/
def successfulLogin (u : User) : User :=
  if u.isLocked then u
  else { u with loginAttempts := 0, lastFailedLoginAt := none }

/-- The response `loginUser` (authController.js:206–249) sends back after a
failed credential check on an unlocked account. -/
inductive LoginFailResponse
  | lockedOut (lockedAt : Option Nat) (lockedReason : Option String)
  | invalidCredentials (attemptsRemaining : Int)
deriving DecidableEq, Repr

/-- The `!isMatch` branch of `loginUser` (authController.js:206–249): run
`User.failedLogin`; if it returns a locked user answer 423 with the lock
metadata, otherwise re-read the user and answer 401 with
`attemptsRemaining = 3 - updatedUser.loginAttempts`. -/
def loginFailStep (t : Nat) (u : User) : User × LoginFailResponse :=
  match failedLogin t u with
  | (u', some lockedUser) =>
      (u', .lockedOut lockedUser.lockedAt lockedUser.lockedReason)
  | (u', none) =>
      (u', .invalidCredentials ((3 : Int) - (u'.loginAttempts : Int)))

/-! ## Account unlock (`staff.js` static `unlockAccount`,
`authController.js` `unlockAccount`, `roleUtils.js` `canAdminManageUser`). -/

/-- Embeds `canAdminManageUser` (roleUtils.js:153–167). -/
def canAdminManageUser (adminUser targetUser : User) : Bool :=
  if adminUser.role = Role.SUPER_ADMIN then true
  else if adminUser.role = Role.LINE_MANAGER then
    decide (targetUser.role = Role.STAFF) &&
      decide (targetUser.reportsTo = some adminUser.id)
  else false

/-- Errors thrown by `userSchema.statics.unlockAccount` (staff.js:198–248). -/
inductive UnlockError
  | userNotFound
  | notLocked
  | adminNotFound
  | unauthorizedStaffUnlock
  | unauthorizedManagerUnlock
  | unauthorizedSuperAdminUnlock
deriving DecidableEq, Repr

/-- The field resets `unlockAccount` performs on success (staff.js:238–242). -/
def clearLock (u : User) : User :=
  { u with
    isLocked := false
    lockedAt := none
    lockedReason := none
    loginAttempts := 0
    lastFailedLoginAt := none }

/-- Embeds `userSchema.statics.unlockAccount(id_card, adminId, adminRole)`
(staff.js:198–248).  `adminId` is the acting administrator's `id_card`;
each role branch re-fetches the admin record by that card. -/
def unlockAccount (users : List User) (id_card adminId : String) :
    Except UnlockError User :=
  match findUserByIdCard users id_card with
  | none => .error .userNotFound
  | some user =>
    if user.isLocked = false then .error .notLocked
    else
      match user.role with
      | Role.STAFF =>
        match findUserByIdCard users adminId with
        | none => .error .adminNotFound
        | some adminUser =>
          if adminUser.role = Role.SUPER_ADMIN ∨
             (adminUser.role = Role.LINE_MANAGER ∧
              user.reportsTo = some adminUser.id) then
            .ok (clearLock user)
          else .error .unauthorizedStaffUnlock
      | Role.LINE_MANAGER =>
        match findUserByIdCard users adminId with
        | none => .error .adminNotFound
        | some adminUser =>
          if adminUser.role = Role.SUPER_ADMIN then .ok (clearLock user)
          else .error .unauthorizedManagerUnlock
      | Role.SUPER_ADMIN =>
        match findUserByIdCard users adminId with
        | none => .error .adminNotFound
        | some adminUser =>
          if adminUser.role = Role.SUPER_ADMIN then .ok (clearLock user)
          else .error .unauthorizedSuperAdminUnlock

/-- Errors of the `unlockAccount` controller (authController.js:695–788). -/
inductive CtrlUnlockError
  | adminAccessRequired
  | targetNotFound
  | insufficientPermissions
  | modelError (e : UnlockError)
deriving DecidableEq, Repr

/-- The `unlockAccount` controller (authController.js:695–788): requires
`req.user.isAdmin`, fetches the target by `id_card`, gates on
`canAdminManageUser(req.user, targetUser) || req.user.role === 'SUPER_ADMIN'`,
then delegates to the model static with the actor's `id_card`.  The actor
`req.user` is the record `authMiddleware` loaded for the token
(auth.middleware.js checks only `is_active`, never `isLocked`). -/
def unlockAccountController (users : List User) (actor : User) (id_card : String) :
    Except CtrlUnlockError User :=
  if actor.isAdmin = false then .error .adminAccessRequired
  else
    match findUserByIdCard users id_card with
    | none => .error .targetNotFound
    | some targetUser =>
      if canAdminManageUser actor targetUser = false ∧
         actor.role ≠ Role.SUPER_ADMIN then
        .error .insufficientPermissions
      else
        match unlockAccount users id_card actor.id_card with
        | .ok u => .ok u
        | .error e => .error (.modelError e)

/-! ## User update (`roleUtils.js` `canUpdateUser`/`getAllowedUpdateFields`,
`userController.js` `updateUser`). -/

/-- The computed authorization tier of `canUpdateUser` (roleUtils.js:25–50). -/
inductive Level
  | super_admin
  | manager
  | self
deriving DecidableEq, Repr

/-- The JSON keys the update endpoint knows about. -/
inductive FieldName
  | id_card
  | email
  | first_name
  | last_name
  | password
  | region
  | branch
  | department
  | position
  | role
  | reportsTo
  | is_active
  | is_staff
  | isAdmin
deriving DecidableEq, Repr

/-- A `req.body` for the user update endpoint.  `some` marks a key present
in the JSON body; for `reportsTo`, `some none` models an explicit
`null`/empty value. -/
structure UpdatePayload where
  id_card : Option String := none
  email : Option String := none
  first_name : Option String := none
  last_name : Option String := none
  password : Option String := none
  region : Option String := none
  branch : Option String := none
  department : Option Nat := none
  position : Option String := none
  role : Option Role := none
  reportsTo : Option (Option Nat) := none
  is_active : Option Bool := none
  is_staff : Option Bool := none
  isAdmin : Option Bool := none
deriving DecidableEq, Repr

/-- All field names, in the order the allowed-field lists use them. -/
def allFieldNames : List FieldName :=
  [FieldName.id_card, FieldName.email, FieldName.first_name,
   FieldName.last_name, FieldName.password, FieldName.region,
   FieldName.branch, FieldName.department, FieldName.position,
   FieldName.role, FieldName.reportsTo, FieldName.is_active,
   FieldName.is_staff, FieldName.isAdmin]

/-- Whether a key is present in the request body. -/
def hasField (p : UpdatePayload) : FieldName → Bool
  | .id_card => p.id_card.isSome
  | .email => p.email.isSome
  | .first_name => p.first_name.isSome
  | .last_name => p.last_name.isSome
  | .password => p.password.isSome
  | .region => p.region.isSome
  | .branch => p.branch.isSome
  | .department => p.department.isSome
  | .position => p.position.isSome
  | .role => p.role.isSome
  | .reportsTo => p.reportsTo.isSome
  | .is_active => p.is_active.isSome
  | .is_staff => p.is_staff.isSome
  | .isAdmin => p.isAdmin.isSome

/-- Embeds `Object.keys(req.body)` (userController.js:206). -/
def payloadKeys (p : UpdatePayload) : List FieldName :=
  allFieldNames.filter (hasField p)

/-- Error responses of `updateUser` (userController.js:154–592). -/
inductive UpdateError
  | userNotFound
  | insufficientPermissions
  | managerOnlyDirectReports
  | unauthorizedFields (fields : List FieldName)
  | selfDeactivationNotAllowed
  | insufficientPrivileges
  | lastSuperAdmin
  | idCardSuperAdminOnly
  | invalidIdCardFormat
  | roleChangeSuperAdminOnly
  | superAdminCannotHaveManager
  | staffMustHaveManager
  | managerNotFound
  | reportsToMustBeManager
  | onlySuperAdminAssignsSuperAdmin
  | passwordPermission
  | invalidRegion
  | invalidBranch
deriving DecidableEq, Repr

/-- Embeds `canUpdateUser` (roleUtils.js:25–50): SUPER_ADMIN beats self beats
manager-of-direct-report. -/
def canUpdateUser (users : List User) (currentUser : User) (targetUserId : Nat) :
    Except UpdateError (Level × User) :=
  match findUserById users targetUserId with
  | none => .error .userNotFound
  | some targetUser =>
    if currentUser.role = Role.SUPER_ADMIN then .ok (Level.super_admin, targetUser)
    else if currentUser.id = targetUserId then .ok (Level.self, targetUser)
    else if currentUser.role = Role.LINE_MANAGER ∧
            targetUser.reportsTo = some currentUser.id then
      .ok (Level.manager, targetUser)
    else .error .insufficientPermissions

/-- The `baseFields` list of `getAllowedUpdateFields` (roleUtils.js:56). -/
def baseFields : List FieldName :=
  [FieldName.email, FieldName.first_name, FieldName.last_name,
   FieldName.region, FieldName.branch]

/-- Embeds `getAllowedUpdateFields` (roleUtils.js:55–88), by update level. -/
def getAllowedUpdateFields : Level → List FieldName
  | Level.super_admin =>
      baseFields ++
        [FieldName.id_card, FieldName.is_active, FieldName.is_staff,
         FieldName.isAdmin, FieldName.department, FieldName.position,
         FieldName.role, FieldName.reportsTo, FieldName.password]
  | Level.manager =>
      baseFields ++ [FieldName.department, FieldName.position, FieldName.is_active]
  | Level.self =>
      [FieldName.email, FieldName.first_name, FieldName.last_name, FieldName.password]

/-- The `/^KE\d{3}$/` employee-code format (userController.js:281). -/
def validIdCard (s : String) : Bool :=
  decide (s.length = 5) && decide (s.take 2 = "KE") && (s.drop 2).all Char.isDigit

/-- Embeds `validRegions` (userController.js:501). -/
def validRegions : List String := ["Lagos", "Delta", "Osun"]

/-- Embeds `validBranches` (userController.js:502–506). -/
def validBranches (region : String) : List String :=
  if region = "Lagos" then ["Alimosho", "HQ"]
  else if region = "Delta" then ["Warri"]
  else if region = "Osun" then ["Osun"]
  else []

/-- Embeds the query `User.countDocuments` over active SUPER_ADMIN records other than the target
(userController.js:251–255). -/
def countOtherActiveSuperAdmins (users : List User) (targetId : Nat) : Nat :=
  (users.filter (fun u =>
    decide (u.role = Role.SUPER_ADMIN ∧ u.is_active = true ∧ u.id ≠ targetId))).length

/-- Step: `id_card` handling (userController.js:272–290). -/
def applyIdCard (level : Level) (p : UpdatePayload) (t : User) :
    Except UpdateError User :=
  match p.id_card with
  | none => .ok t
  | some c =>
    if level ≠ Level.super_admin then .error .idCardSuperAdminOnly
    else if validIdCard c = false then .error .invalidIdCardFormat
    else .ok { t with id_card := c }

/-- Step: `department` handling (userController.js:292–315).  Returns the
updated user and the `departmentChanged` flag.  (The ObjectId format check
cannot fail in the embedding, where references are `Nat`.) -/
def applyDepartment (p : UpdatePayload) (t : User) : User × Bool :=
  match p.department with
  | none => (t, false)
  | some d => ({ t with department := some d }, decide (t.department ≠ some d))

/-- Step: `role` change handling (userController.js:318–366).  Applies only
when the requested role differs from the current one; recomputes `isAdmin`;
for a change to STAFF with no explicit and no current manager it attempts
the department's designated line manager (`dep.lineManager`, which is
`none` on every stored document); for a change away from STAFF it forces
`reportsTo := null`. -/
def applyRole (departments : List Department) (level : Level)
    (p : UpdatePayload) (t : User) : Except UpdateError User :=
  match p.role with
  | none => .ok t
  | some r =>
    if r = t.role then .ok t
    else if level ≠ Level.super_admin then .error .roleChangeSuperAdminOnly
    else
      let t1 := { t with
        role := r
        isAdmin := decide (r = Role.SUPER_ADMIN ∨ r = Role.LINE_MANAGER) }
      if r = Role.STAFF then
        if (p.reportsTo = none ∨ p.reportsTo = some none) ∧ t1.reportsTo = none then
          match t1.department with
          | none => .ok t1
          | some depId =>
            match findDepartmentById departments depId with
            | none => .ok t1
            | some dep =>
              match dep.lineManager with
              | some m => .ok { t1 with reportsTo := some m }
              | none => .ok t1
        else .ok t1
      else .ok { t1 with reportsTo := none }

/-- Step: explicit `reportsTo` handling (userController.js:369–420). -/
def applyReportsTo (users : List User) (actorRole : Role)
    (p : UpdatePayload) (t : User) : Except UpdateError User :=
  match p.reportsTo with
  | none => .ok t
  | some rv =>
    if t.role = Role.SUPER_ADMIN then .error .superAdminCannotHaveManager
    else
      match rv with
      | none =>
        if t.role = Role.STAFF then .error .staffMustHaveManager
        else .ok { t with reportsTo := none }
      | some managerId =>
        match findUserById users managerId with
        | none => .error .managerNotFound
        | some manager =>
          if manager.role ≠ Role.LINE_MANAGER ∧ manager.role ≠ Role.SUPER_ADMIN then
            .error .reportsToMustBeManager
          else if manager.role = Role.SUPER_ADMIN ∧ actorRole ≠ Role.SUPER_ADMIN then
            .error .onlySuperAdminAssignsSuperAdmin
          else .ok { t with reportsTo := some managerId }

/-- The fallback `User.findOne({department, role: LINE_MANAGER, is_active: true})`
of the auto-assign block (userController.js:443–447, 460–464). -/
def findActiveDeptLineManager (users : List User) (department : Option Nat) : Option User :=
  users.find? (fun u =>
    decide (u.department = department ∧ u.role = Role.LINE_MANAGER ∧ u.is_active = true))

/-- Step: auto-assign line manager when the department changed and the
target is STAFF (userController.js:425–471).  The designated branch reads
`newDepartment.lineManager`, which is `none` on every stored document
(the Department schema declares no such path), so control always falls
through to the fallback that assigns the first active LINE_MANAGER stored
for the new department, leaving `reportsTo` untouched when there is none. -/
def autoAssignManager (users : List User) (departments : List Department)
    (departmentChanged : Bool) (t : User) : User :=
  if departmentChanged && decide (t.role = Role.STAFF) then
    let newDepartment :=
      match t.department with
      | none => none
      | some depId => findDepartmentById departments depId
    match newDepartment with
    | some dep =>
      match dep.lineManager with
      | some lmId =>
        match findUserById users lmId with
        | some lm =>
          if lm.is_active &&
             (decide (lm.role = Role.LINE_MANAGER) || decide (lm.role = Role.SUPER_ADMIN)) then
            { t with reportsTo := some lmId }
          else
            match findActiveDeptLineManager users t.department with
            | some m => { t with reportsTo := some m.id }
            | none => t
        | none =>
          match findActiveDeptLineManager users t.department with
          | some m => { t with reportsTo := some m.id }
          | none => t
      | none =>
        match findActiveDeptLineManager users t.department with
        | some m => { t with reportsTo := some m.id }
        | none => t
    | none =>
      match findActiveDeptLineManager users t.department with
      | some m => { t with reportsTo := some m.id }
      | none => t
  else t

/-- The injected `bcrypt.hash` capability (userController.js:484–485). -/
def hashPassword (pw : String) : String := "bcrypt$" ++ pw

/-- Step: password handling (userController.js:474–486): only `self` or
`super_admin` may set it. -/
def applyPassword (level : Level) (p : UpdatePayload) (t : User) :
    Except UpdateError User :=
  match p.password with
  | none => .ok t
  | some pw =>
    if level ≠ Level.self ∧ level ≠ Level.super_admin then .error .passwordPermission
    else .ok { t with password := hashPassword pw }

/-- Step: the `basicFields` loop (userController.js:489–494) over
`email`, `first_name`, `last_name`, `position`, `is_active`. -/
def applyBasicFields (p : UpdatePayload) (t : User) : User :=
  let t1 := match p.email with | some v => { t with email := v } | none => t
  let t2 := match p.first_name with | some v => { t1 with first_name := v } | none => t1
  let t3 := match p.last_name with | some v => { t2 with last_name := v } | none => t2
  let t4 := match p.position with | some v => { t3 with position := v } | none => t3
  match p.is_active with | some v => { t4 with is_active := v } | none => t4

/-- Step: region/branch pair validation (userController.js:497–529). -/
def applyRegionBranch (p : UpdatePayload) (t : User) : Except UpdateError User :=
  if p.region.isSome || p.branch.isSome then
    let region := p.region.getD t.region
    let branch := p.branch.getD t.branch
    if validRegions.contains region = false then .error .invalidRegion
    else if (validBranches region).contains branch = false then .error .invalidBranch
    else .ok { t with region := region, branch := branch }
  else .ok t

/-- Embeds `updateUser` (userController.js:154–592): authorization level, the
LINE_MANAGER direct-report restriction, the allowed-field whitelist
(password exempt), the three deactivation vetoes, then the field
application steps in source order, ending with the save.  An `.error`
return happens before `targetUser.save()`, so no payload field is
persisted on any error path. -/
def updateUser (users : List User) (departments : List Department)
    (currentUser : User) (targetUserId : Nat) (p : UpdatePayload) :
    Except UpdateError User :=
  match canUpdateUser users currentUser targetUserId with
  | .error e => .error e
  | .ok (level, targetUser) =>
    if currentUser.role = Role.LINE_MANAGER ∧ level ≠ Level.manager then
      .error .managerOnlyDirectReports
    else
      let allowedFields := getAllowedUpdateFields level
      let unauthorizedFields := (payloadKeys p).filter (fun f =>
        !(allowedFields.contains f) && decide (f ≠ FieldName.password))
      if unauthorizedFields ≠ [] then
        .error (.unauthorizedFields unauthorizedFields)
      else if p.is_active = some false ∧ targetUser.id = currentUser.id then
        .error .selfDeactivationNotAllowed
      else if p.is_active = some false ∧ targetUser.role = Role.SUPER_ADMIN ∧
              currentUser.role ≠ Role.SUPER_ADMIN then
        .error .insufficientPrivileges
      else if p.is_active = some false ∧ targetUser.role = Role.SUPER_ADMIN ∧
              countOtherActiveSuperAdmins users targetUser.id = 0 then
        .error .lastSuperAdmin
      else
        match applyIdCard level p targetUser with
        | .error e => .error e
        | .ok t1 =>
          let step2 := applyDepartment p t1
          match applyRole departments level p step2.1 with
          | .error e => .error e
          | .ok t3 =>
            match applyReportsTo users currentUser.role p t3 with
            | .error e => .error e
            | .ok t4 =>
              let t5 := autoAssignManager users departments step2.2 t4
              match applyPassword level p t5 with
              | .error e => .error e
              | .ok t6 => applyRegionBranch p (applyBasicFields p t6)

/-! ## Single-user read (`selfOrAdmin` in role.middleware.js, `getUser` in
userController.js:111–152, `canViewUser` in roleUtils.js:118–136). -/

/-- Embeds `canViewUser` (roleUtils.js:118–136): self, any SUPER_ADMIN, or the
target's current LINE_MANAGER. -/
def canViewUser (currentUser targetUser : User) : Bool :=
  if currentUser.id = targetUser.id then true
  else if currentUser.role = Role.SUPER_ADMIN then true
  else if currentUser.role = Role.LINE_MANAGER then
    decide (targetUser.reportsTo = some currentUser.id)
  else false

/-- The `selfOrAdmin` route middleware (role.middleware.js): the target id
equals the actor's, or the actor holds any admin role. -/
def selfOrAdmin (actor : User) (targetId : Nat) : Bool :=
  decide (targetId = actor.id) ||
    decide (actor.role = Role.SUPER_ADMIN) ||
    decide (actor.role = Role.LINE_MANAGER)

/-- Errors of the single-user read pipeline. -/
inductive GetUserError
  | accessDenied
  | notFound
deriving DecidableEq, Repr

/-- The `GET /users/:id` pipeline: `selfOrAdmin` middleware, then the
`getUser` controller (userController.js:111–152), which performs **no**
further authorization check before returning the record. -/
def getUser (users : List User) (actor : User) (targetId : Nat) :
    Except GetUserError User :=
  if selfOrAdmin actor targetId = false then .error .accessDenied
  else
    match findUserById users targetId with
    | none => .error .notFound
    | some user => .ok user

/-! ## DailyActivity model and controllers (`dailyActivities.js`,
`activityController.js`). -/

/-- The `status` enum of the activity schema
(`['pending', 'ongoing', 'completed']`). -/
inductive ActStatus
  | pending
  | ongoing
  | completed
deriving DecidableEq, Repr

/-- A daily-activity document (`dailyActivities.js`): owner reference,
day-granular date as a `Nat`, time interval and description as validated
strings. -/
structure DailyActivity where
  id : Nat
  user : Nat
  date : Nat
  timeInterval : String
  description : String
  status : ActStatus
deriving DecidableEq, Repr

/-- A `req.body` for the activity update endpoint
(activityController.js:299–429). -/
structure ActUpdatePayload where
  timeInterval : Option String := none
  description : Option String := none
  status : Option ActStatus := none
deriving DecidableEq, Repr

/-- Error responses of `updateDailyActivity`. -/
inductive ActUpdateError
  | noFields
  | notFound
  | completedLocked
deriving DecidableEq, Repr

/-- Embeds the lookup `DailyActivity.findOne` on activity id and owner
(activityController.js:349–352). -/
def findOwnActivity (acts : List DailyActivity) (actorId activityId : Nat) :
    Option DailyActivity :=
  acts.find? (fun a => decide (a.id = activityId) && decide (a.user = actorId))

/-- Embeds `updateDailyActivity` (activityController.js:299–429): requires at
least one field, finds the activity owned by the requester, refuses to
move a `completed` activity to any other status, then assigns the
provided fields and saves. -/
def updateDailyActivity (acts : List DailyActivity) (actorId activityId : Nat)
    (p : ActUpdatePayload) : Except ActUpdateError DailyActivity :=
  if p.timeInterval = none ∧ p.description = none ∧ p.status = none then
    .error .noFields
  else
    match findOwnActivity acts actorId activityId with
    | none => .error .notFound
    | some activity =>
      if activity.status = ActStatus.completed ∧
         ¬p.status = some ActStatus.completed ∧ ¬p.status = none then
        .error .completedLocked
      else
        .ok { activity with
          timeInterval := p.timeInterval.getD activity.timeInterval
          description := p.description.getD activity.description
          status := p.status.getD activity.status }

/-- The query parameters of `getAllActivities`
(activityController.js:432–804), already decoded. -/
structure ActQuery where
  date : Option Nat := none
  status : Option ActStatus := none
  region : Option String := none
  branch : Option String := none
  user : Option Nat := none
deriving Repr

/-- Error responses of `getAllActivities`. -/
inductive ActQueryError
  | filterUserNotFound
  | accessDenied
deriving DecidableEq, Repr

/-- Region/branch match of a user against the query
(activityController.js:607–614). -/
def matchesRB (q : ActQuery) (u : User) : Bool :=
  (match q.region with | none => true | some r => decide (u.region = r)) &&
  (match q.branch with | none => true | some b => decide (u.branch = b))

/-- The final Mongo filter of `getAllActivities` applied to one activity:
user-id restriction, date, status (activityController.js:450, 565, 586,
601). -/
def activityMatches (userFilter : Option (List Nat)) (q : ActQuery)
    (a : DailyActivity) : Bool :=
  (match userFilter with | none => true | some ids => ids.contains a.user) &&
  (match q.date with | none => true | some d => decide (a.date = d)) &&
  (match q.status with | none => true | some st => decide (a.status = st))

/-- Embeds the `skip`/`limit` pagination (activityController.js:701, 719–720). -/
def paginate {α : Type} (page limit : Nat) (l : List α) : List α :=
  (l.drop ((page - 1) * limit)).take limit

/-- The "additional security check for LINE_MANAGER"
(activityController.js:722–739): keep only activities whose populated
owner exists and currently reports to the acting manager. -/
def lmPostFilter (users : List User) (actorId : Nat)
    (l : List DailyActivity) : List DailyActivity :=
  l.filter (fun a =>
    match findUserById users a.user with
    | none => false
    | some owner =>
      match owner.reportsTo with
      | none => false
      | some r => decide (r = actorId))

/-- The query-and-postfilter tail of `getAllActivities`
(activityController.js:700–795) for a resolved user-id restriction.
The sort order is omitted: it permutes but never changes membership. -/
def applyQueryFilters (users : List User) (acts : List DailyActivity)
    (actor : User) (q : ActQuery) (page limit : Nat)
    (userFilter : Option (List Nat)) : List DailyActivity :=
  let pageActs := paginate page limit (acts.filter (activityMatches userFilter q))
  if actor.role = Role.LINE_MANAGER then lmPostFilter users actor.id pageActs
  else pageActs

/-- Embeds `getAllActivities` (activityController.js:432–804): LINE_MANAGER is
pre-restricted to current direct reports (empty result if none); an
explicit user drill-down must name a direct report for LINE_MANAGER;
otherwise region/branch filters are resolved to user-id sets per role;
the result is then paginated and post-filtered. -/
def getAllActivities (users : List User) (acts : List DailyActivity)
    (actor : User) (q : ActQuery) (page limit : Nat) :
    Except ActQueryError (List DailyActivity) :=
  let initFilter : Option (Option (List Nat)) :=
    if actor.role = Role.LINE_MANAGER then
      let directReports := users.filter (fun u =>
        decide (u.reportsTo = some actor.id ∧ u.role = Role.STAFF))
      if directReports.isEmpty then none
      else some (some (directReports.map User.id))
    else some none
  match initFilter with
  | none => .ok []
  | some userFilter0 =>
    match q.user with
    | some uid =>
      match findUserById users uid with
      | none => .error .filterUserNotFound
      | some targetUser =>
        if actor.role = Role.LINE_MANAGER ∧
           ¬(targetUser.role = Role.STAFF ∧ targetUser.reportsTo = some actor.id) then
          .error .accessDenied
        else .ok (applyQueryFilters users acts actor q page limit (some [uid]))
    | none =>
      if q.region.isSome || q.branch.isSome then
        if actor.role = Role.LINE_MANAGER then
          let matching := users.filter (fun u =>
            decide (u.reportsTo = some actor.id ∧ u.role = Role.STAFF) && matchesRB q u)
          if matching.isEmpty then .ok []
          else .ok (applyQueryFilters users acts actor q page limit
            (some (matching.map User.id)))
        else if actor.role = Role.SUPER_ADMIN then
          let matching := users.filter (matchesRB q)
          if matching.isEmpty then .ok []
          else .ok (applyQueryFilters users acts actor q page limit
            (some (matching.map User.id)))
        else .ok (applyQueryFilters users acts actor q page limit userFilter0)
      else .ok (applyQueryFilters users acts actor q page limit userFilter0)

/-! ## Concrete stores used by witnesses and counterexamples. -/

/-- Concrete user for witnesses. -/
def sampleStaff : User :=
  { id := 10, id_card := "KE010", email := "b@x.com", password := "pw"
    first_name := "B", last_name := "Staff", region := "Lagos", branch := "HQ"
    department := some 1, position := "Analyst", role := Role.STAFF
    reportsTo := some 2, isVerified := true, loginAttempts := 0
    isLocked := false, lockedAt := none, lockedReason := none
    lastFailedLoginAt := none, isAdmin := false, is_staff := true
    is_active := true }

/-- Concrete SUPER_ADMIN for witnesses. -/
def sampleSuper : User :=
  { id := 1, id_card := "KE001", email := "a@x.com", password := "pw"
    first_name := "A", last_name := "Admin", region := "Lagos", branch := "HQ"
    department := some 1, position := "Director", role := Role.SUPER_ADMIN
    reportsTo := none, isVerified := true, loginAttempts := 0
    isLocked := false, lockedAt := none, lockedReason := none
    lastFailedLoginAt := none, isAdmin := true, is_staff := true
    is_active := true }

/-- Concrete LINE_MANAGER (id 2, the manager of `lockedStaff`). -/
def sampleManager : User :=
  { id := 2, id_card := "KE002", email := "c@x.com", password := "pw"
    first_name := "C", last_name := "Manager", region := "Lagos", branch := "HQ"
    department := some 1, position := "Manager", role := Role.LINE_MANAGER
    reportsTo := none, isVerified := true, loginAttempts := 0
    isLocked := false, lockedAt := none, lockedReason := none
    lastFailedLoginAt := none, isAdmin := true, is_staff := true
    is_active := true }

/-- A locked STAFF account reporting to `sampleManager`. -/
def lockedStaff : User :=
  { sampleStaff with
    isLocked := true
    lockedAt := some 5
    lockedReason := some "3 consecutive failed login attempts" }

/-- Store used by the unlock witnesses. -/
def unlockStore : List User := [sampleSuper, sampleManager, lockedStaff]

/-- A locked SUPER_ADMIN account. -/
def lockedSuper : User :=
  { sampleSuper with
    isLocked := true
    lockedAt := some 7
    lockedReason := some "Manually locked by administrator" }

/-- Store used for the SUPER_ADMIN unlock claims. -/
def superStore : List User := [lockedSuper, sampleManager]

/-- An inactive SUPER_ADMIN (id 4): its presence never counts towards the
active-SUPER_ADMIN total. -/
def inactiveSuper : User :=
  { sampleSuper with
    id := 4, id_card := "KE004", email := "f@x.com", is_active := false }

/-- The deactivation payload `{ is_active: false }`. -/
def deactivatePayload : UpdatePayload := { is_active := some false }

/-- Store in which `sampleSuper` is the last remaining active SUPER_ADMIN. -/
def lastSuperStore : List User := [sampleSuper, inactiveSuper, sampleManager]

/-- The self-update payload of end-to-end scenario 3:
`{ email: "x@y.com", is_active: false }`. -/
def selfDeactivatePayload : UpdatePayload :=
  { email := some "x@y.com", is_active := some false }

/-- Store containing a manager (id 2) and their direct report (id 10). -/
def teamStore : List User := [sampleManager, sampleStaff]

/-- An active LINE_MANAGER (id 3) stored in department 2. -/
def managerDept2 : User :=
  { sampleManager with
    id := 3, id_card := "KE003", email := "d@x.com", department := some 2 }

/-- Department 2.  The schema offers no way to designate a line manager. -/
def dept2 : Department :=
  { id := 2, name := "Operations", code := "OPS", description := "", isActive := true }

/-- Store for the department-change run. -/
def deptChangeUsers : List User := [sampleSuper, sampleManager, managerDept2, sampleStaff]

/-- The department-change payload `{ department: 2 }`. -/
def deptChangePayload : UpdatePayload := { department := some 2 }

/-- A STAFF user (id 11) reporting to a manager other than `sampleManager`. -/
def otherStaff : User :=
  { sampleStaff with
    id := 11, id_card := "KE011", email := "e@x.com", reportsTo := some 3 }

/-- Store for the single-user read claims. -/
def readStore : List User := [sampleManager, otherStaff]

/-- A completed activity owned by user 10. -/
def completedAct : DailyActivity :=
  { id := 100, user := 10, date := 50, timeInterval := "09:00 - 10:00"
    description := "finished the report", status := ActStatus.completed }

/-- A pending activity owned by user 11 (not a report of `sampleManager`). -/
def strangerAct : DailyActivity :=
  { id := 101, user := 11, date := 50, timeInterval := "10:00 - 11:00"
    description := "other work", status := ActStatus.pending }

/-- Activity store for the listing witness. -/
def actStore : List DailyActivity := [completedAct, strangerAct]

/-- User store for the listing witness: `sampleStaff` reports to
`sampleManager`, `otherStaff` does not. -/
def listingUsers : List User := [sampleManager, sampleStaff, otherStaff]

end EMS

namespace EMS

/-- Claim C1 — For every user starting unlocked with `loginAttempts = 0`:
after two consecutive failed credential checks the account is still
unlocked and the second failure's response reports `attemptsRemaining = 1`;
the third consecutive failure locks the account with reason
"3 consecutive failed login attempts" and resets the counter to 0. -/
theorem three_failures_lock_two_do_not (u : User) (t1 t2 t3 : Nat)
    (hLock : u.isLocked = false) (hCnt : u.loginAttempts = 0) :
    (loginFailStep t2 (loginFailStep t1 u).1).1.isLocked = false ∧
    (loginFailStep t2 (loginFailStep t1 u).1).2 =
      LoginFailResponse.invalidCredentials 1 ∧
    (loginFailStep t3 (loginFailStep t2 (loginFailStep t1 u).1).1).1.isLocked = true ∧
    (loginFailStep t3 (loginFailStep t2 (loginFailStep t1 u).1).1).1.lockedReason =
      some "3 consecutive failed login attempts" ∧
    (loginFailStep t3 (loginFailStep t2 (loginFailStep t1 u).1).1).1.loginAttempts = 0 := by
  simp [loginFailStep, failedLogin, hLock, hCnt]

/-- Claim C2 — For every locked STAFF account in the store, the unlock
pipeline (route guard `isAdmin` gate in the controller + role checks in the
model static) succeeds exactly when the acting administrator is the STAFF's
current `reportsTo` LINE_MANAGER or any SUPER_ADMIN, and returns an error
for every other actor; on success `isLocked`, `lockedAt`, `lockedReason`
are cleared and `loginAttempts` is reset to 0. -/
theorem unlock_staff_iff_manager_or_super
    (users : List User) (actor target : User) (tCard : String)
    (hT : findUserByIdCard users tCard = some target)
    (hA : findUserByIdCard users actor.id_card = some actor)
    (hRole : target.role = Role.STAFF)
    (hLocked : target.isLocked = true)
    (hAdm : actor.isAdmin = true ↔
      (actor.role = Role.SUPER_ADMIN ∨ actor.role = Role.LINE_MANAGER)) :
    ((actor.role = Role.SUPER_ADMIN ∨
        (actor.role = Role.LINE_MANAGER ∧ target.reportsTo = some actor.id)) →
      unlockAccountController users actor tCard = .ok (clearLock target) ∧
      (clearLock target).isLocked = false ∧
      (clearLock target).lockedAt = none ∧
      (clearLock target).lockedReason = none ∧
      (clearLock target).loginAttempts = 0) ∧
    (¬ (actor.role = Role.SUPER_ADMIN ∨
        (actor.role = Role.LINE_MANAGER ∧ target.reportsTo = some actor.id)) →
      ∃ e, unlockAccountController users actor tCard = .error e) := by
  constructor
  · intro hAuth
    have hAdmT : actor.isAdmin = true := by
      apply hAdm.mpr
      rcases hAuth with h | ⟨h, _⟩
      · exact Or.inl h
      · exact Or.inr h
    rcases hAuth with h | ⟨h1, h2⟩
    · simp [unlockAccountController, unlockAccount, canAdminManageUser, clearLock,
        hT, hA, hRole, hLocked, hAdmT, h]
    · simp [unlockAccountController, unlockAccount, canAdminManageUser, clearLock,
        hT, hA, hRole, hLocked, hAdmT, h1, h2]
  · intro hn
    cases hr : actor.role with
    | SUPER_ADMIN => exact absurd (Or.inl hr) hn
    | LINE_MANAGER =>
      have hAdmT : actor.isAdmin = true := hAdm.mpr (Or.inr hr)
      have hrep : target.reportsTo ≠ some actor.id := by
        intro hc
        exact hn (Or.inr ⟨hr, hc⟩)
      refine ⟨CtrlUnlockError.insufficientPermissions, ?_⟩
      simp [unlockAccountController, canAdminManageUser, hT, hAdmT, hr, hRole, hrep]
    | STAFF =>
      have hAdmF : actor.isAdmin = false := by
        cases h : actor.isAdmin with
        | false => rfl
        | true =>
          rcases hAdm.mp h with hc | hc <;> rw [hr] at hc <;> exact absurd hc (by simp)
      refine ⟨CtrlUnlockError.adminAccessRequired, ?_⟩
      simp [unlockAccountController, hAdmF]

/-- Witness for C2: the SUPER_ADMIN actor unlocks the locked STAFF in the
concrete store. -/
theorem unlock_staff_iff_manager_or_super_witness :
    unlockAccountController unlockStore sampleSuper "KE010" =
      .ok (clearLock lockedStaff) ∧
    (clearLock lockedStaff).isLocked = false ∧
    (clearLock lockedStaff).lockedAt = none ∧
    (clearLock lockedStaff).lockedReason = none ∧
    (clearLock lockedStaff).loginAttempts = 0 :=
  (unlock_staff_iff_manager_or_super unlockStore sampleSuper lockedStaff "KE010"
    (by decide) (by decide) rfl rfl (by decide)).1 (Or.inl rfl)

/-- Counterexample to claim C3 — the unlock pipeline contains no
different-identity check for SUPER_ADMIN targets (staff.js:228–236 only
tests the acting admin's role, and auth.middleware.js never rejects locked
token holders), so the locked SUPER_ADMIN acting as their own administrator
unlocks themself, which the claim says must be rejected. -/
theorem unlock_super_self_succeeds_cex :
    unlockAccountController superStore lockedSuper "KE001" =
      .ok (clearLock lockedSuper) := by
  rfl

/-- Claim C3 (amended) — For every locked SUPER_ADMIN target, the unlock
pipeline succeeds exactly when the acting administrator's role is
SUPER_ADMIN; the actor is *not* required to be a different SUPER_ADMIN, so
a locked SUPER_ADMIN holding a valid token can unlock themself. -/
theorem unlock_super_iff_super_role
    (users : List User) (actor target : User) (tCard : String)
    (hT : findUserByIdCard users tCard = some target)
    (hA : findUserByIdCard users actor.id_card = some actor)
    (hRole : target.role = Role.SUPER_ADMIN)
    (hLocked : target.isLocked = true)
    (hAdm : actor.isAdmin = true ↔
      (actor.role = Role.SUPER_ADMIN ∨ actor.role = Role.LINE_MANAGER)) :
    (actor.role = Role.SUPER_ADMIN →
      unlockAccountController users actor tCard = .ok (clearLock target)) ∧
    (actor.role ≠ Role.SUPER_ADMIN →
      ∃ e, unlockAccountController users actor tCard = .error e) := by
  constructor
  · intro h
    have hAdmT : actor.isAdmin = true := hAdm.mpr (Or.inl h)
    simp [unlockAccountController, unlockAccount, canAdminManageUser,
      hT, hA, hRole, hLocked, hAdmT, h]
  · intro hn
    cases hr : actor.role with
    | SUPER_ADMIN => exact absurd hr hn
    | LINE_MANAGER =>
      have hAdmT : actor.isAdmin = true := hAdm.mpr (Or.inr hr)
      refine ⟨CtrlUnlockError.insufficientPermissions, ?_⟩
      simp [unlockAccountController, canAdminManageUser, hT, hAdmT, hr, hRole]
    | STAFF =>
      have hAdmF : actor.isAdmin = false := by
        cases h : actor.isAdmin with
        | false => rfl
        | true =>
          rcases hAdm.mp h with hc | hc <;> rw [hr] at hc <;> exact absurd hc (by simp)
      refine ⟨CtrlUnlockError.adminAccessRequired, ?_⟩
      simp [unlockAccountController, hAdmF]

/-- Witness for the amended C3: the locked SUPER_ADMIN themself (role
SUPER_ADMIN) successfully runs the unlock. -/
theorem unlock_super_iff_super_role_witness :
    unlockAccountController superStore lockedSuper "KE001" =
      .ok (clearLock lockedSuper) :=
  (unlock_super_iff_super_role superStore lockedSuper lockedSuper "KE001"
    (by decide) (by decide) rfl rfl (by decide)).1 rfl

/-- Witness for C1 at the concrete user `sampleStaff`. -/
theorem three_failures_lock_two_do_not_witness :
    (loginFailStep 2 (loginFailStep 1 sampleStaff).1).1.isLocked = false ∧
    (loginFailStep 2 (loginFailStep 1 sampleStaff).1).2 =
      LoginFailResponse.invalidCredentials 1 ∧
    (loginFailStep 3 (loginFailStep 2 (loginFailStep 1 sampleStaff).1).1).1.isLocked = true ∧
    (loginFailStep 3 (loginFailStep 2 (loginFailStep 1 sampleStaff).1).1).1.lockedReason =
      some "3 consecutive failed login attempts" ∧
    (loginFailStep 3 (loginFailStep 2 (loginFailStep 1 sampleStaff).1).1).1.loginAttempts = 0 :=
  three_failures_lock_two_do_not sampleStaff 1 2 3 rfl rfl

end EMS

namespace EMS

/-- Fact: `findUserById` only returns a record whose `id` is the looked-up key. -/
theorem findUserById_id {users : List User} {i : Nat} {u : User}
    (h : findUserById users i = some u) : u.id = i := by
  have hp := List.find?_some h
  simpa using hp

/-- The super_admin allowed-field list contains every field. -/
theorem mem_superAdminFields (f : FieldName) :
    f ∈ getAllowedUpdateFields Level.super_admin := by
  cases f <;> decide

/-- A payload carrying `is_active` mentions the key. -/
theorem is_active_mem_payloadKeys {p : UpdatePayload} {b : Bool}
    (hPay : p.is_active = some b) : FieldName.is_active ∈ payloadKeys p := by
  simp [payloadKeys, allFieldNames, hasField, hPay]

/-- Claim C4 — Any update request carrying `is_active: false` against a
SUPER_ADMIN target who is the last remaining active SUPER_ADMIN is
rejected before any save, whoever the actor is; when the actor is a
SUPER_ADMIN other than the target (the otherwise well-formed request) the
error is precisely LAST_SUPER_ADMIN.  Since the error return precedes the
save, the target stays active and at least one active SUPER_ADMIN
survives every update. -/
theorem last_super_admin_deactivation_rejected
    (users : List User) (departments : List Department)
    (currentUser target : User) (targetUserId : Nat) (p : UpdatePayload)
    (hFind : findUserById users targetUserId = some target)
    (hRole : target.role = Role.SUPER_ADMIN)
    (hPay : p.is_active = some false)
    (hLast : countOtherActiveSuperAdmins users target.id = 0) :
    (∃ e, updateUser users departments currentUser targetUserId p = .error e) ∧
    (currentUser.role = Role.SUPER_ADMIN → currentUser.id ≠ target.id →
      updateUser users departments currentUser targetUserId p =
        .error UpdateError.lastSuperAdmin) := by
  have hExSelf : ∃ x ∈ payloadKeys p,
      x ∉ getAllowedUpdateFields Level.self ∧ ¬x = FieldName.password :=
    ⟨FieldName.is_active, is_active_mem_payloadKeys hPay, by decide, by decide⟩
  constructor
  · rcases hres : updateUser users departments currentUser targetUserId p with e | u
    · exact ⟨e, rfl⟩
    · exfalso
      by_cases hSA : currentUser.role = Role.SUPER_ADMIN
      · by_cases hSelf : target.id = currentUser.id
        · simp [updateUser, canUpdateUser, hFind, hSA, mem_superAdminFields,
            hPay, hSelf] at hres
        · simp [updateUser, canUpdateUser, hFind, hSA, mem_superAdminFields,
            hPay, hRole, hLast, hSelf] at hres
      · by_cases hSelfId : currentUser.id = targetUserId
        · by_cases hLM : currentUser.role = Role.LINE_MANAGER
          · simp [updateUser, canUpdateUser, hFind, hSA, hSelfId, hLM] at hres
          · simp [updateUser, canUpdateUser, hFind, hSA, hSelfId, hLM,
              hExSelf] at hres
        · by_cases hMgr : currentUser.role = Role.LINE_MANAGER ∧
              target.reportsTo = some currentUser.id
          · by_cases hU : ∃ x ∈ payloadKeys p,
                x ∉ getAllowedUpdateFields Level.manager ∧ ¬x = FieldName.password
            · simp [updateUser, canUpdateUser, hFind, hSA, hSelfId, hMgr.1,
                hMgr.2, hU] at hres
            · by_cases hSelf : target.id = currentUser.id
              · simp [updateUser, canUpdateUser, hFind, hSA, hSelfId, hMgr.1,
                  hMgr.2, hU, hPay, hSelf] at hres
              · simp [updateUser, canUpdateUser, hFind, hSA, hSelfId, hMgr.1,
                  hMgr.2, hU, hPay, hRole, hSelf] at hres
          · simp [updateUser, canUpdateUser, hFind, hSA, hSelfId, hMgr] at hres
  · intro hSA hNe
    have hneq : target.id ≠ currentUser.id := Ne.symm hNe
    simp [updateUser, canUpdateUser, hFind, hSA, mem_superAdminFields,
      hPay, hRole, hLast, hneq]

end EMS

namespace EMS

/-- Witness for C4: in a store where `sampleSuper` is the only active
SUPER_ADMIN, another (inactive) SUPER_ADMIN's deactivation request fails
with LAST_SUPER_ADMIN. -/
theorem last_super_admin_deactivation_rejected_witness :
    updateUser lastSuperStore [] inactiveSuper 1 deactivatePayload =
      .error UpdateError.lastSuperAdmin :=
  (last_super_admin_deactivation_rejected lastSuperStore [] inactiveSuper
    sampleSuper 1 deactivatePayload rfl rfl rfl rfl).2 rfl (by decide)

/-- Every field name is listed in `allFieldNames`. -/
theorem mem_allFieldNames (f : FieldName) : f ∈ allFieldNames := by
  cases f <;> decide

/-- A key present in the body appears in `payloadKeys`. -/
theorem mem_payloadKeys {p : UpdatePayload} {f : FieldName}
    (h : hasField p f = true) : f ∈ payloadKeys p :=
  List.mem_filter.mpr ⟨mem_allFieldNames f, h⟩

/-- Claim C5 — When an actor's update of their own record resolves to the
self level (actor is the target and not a SUPER_ADMIN), a payload carrying
`role`, `id_card`, or `is_active: false` makes the whole operation fail:
an error is returned before any field — including allowed ones such as
`email` — reaches the save. -/
theorem self_update_rejects_privileged_fields
    (users : List User) (departments : List Department)
    (currentUser target : User) (targetUserId : Nat) (p : UpdatePayload)
    (hFind : findUserById users targetUserId = some target)
    (hNotSA : currentUser.role ≠ Role.SUPER_ADMIN)
    (hSelf : currentUser.id = targetUserId)
    (hBad : p.role.isSome = true ∨ p.id_card.isSome = true ∨
      p.is_active = some false) :
    ∃ e, updateUser users departments currentUser targetUserId p = .error e := by
  rcases hres : updateUser users departments currentUser targetUserId p with e | u
  · exact ⟨e, rfl⟩
  · exfalso
    by_cases hLM : currentUser.role = Role.LINE_MANAGER
    · simp [updateUser, canUpdateUser, hFind, hNotSA, hSelf, hLM] at hres
    · have hEx : ∃ x ∈ payloadKeys p,
          x ∉ getAllowedUpdateFields Level.self ∧ ¬x = FieldName.password := by
        rcases hBad with h | h | h
        · exact ⟨FieldName.role, mem_payloadKeys (by simp [hasField, h]),
            by decide, by decide⟩
        · exact ⟨FieldName.id_card, mem_payloadKeys (by simp [hasField, h]),
            by decide, by decide⟩
        · exact ⟨FieldName.is_active, is_active_mem_payloadKeys h,
            by decide, by decide⟩
      simp [updateUser, canUpdateUser, hFind, hNotSA, hSelf, hLM, hEx] at hres

/-- Witness for C5: STAFF `sampleStaff` self-submitting
`{email: "x@y.com", is_active: false}` is rejected outright. -/
theorem self_update_rejects_privileged_fields_witness :
    ∃ e, updateUser teamStore [] sampleStaff 10 selfDeactivatePayload =
      .error e :=
  self_update_rejects_privileged_fields teamStore [] sampleStaff sampleStaff
    10 selfDeactivatePayload rfl (by decide) rfl (Or.inr (Or.inr rfl))

/-- Claim C10 — A LINE_MANAGER's `{is_active: false}` update against a
direct report succeeds and deactivates the target: `is_active` is in the
manager-level whitelist, and the deactivation vetoes fire only for
self-targets or SUPER_ADMIN targets. -/
theorem manager_deactivates_direct_report
    (users : List User) (departments : List Department)
    (currentUser target : User) (targetUserId : Nat)
    (hFind : findUserById users targetUserId = some target)
    (hLM : currentUser.role = Role.LINE_MANAGER)
    (hStaff : target.role = Role.STAFF)
    (hRep : target.reportsTo = some currentUser.id)
    (hNe : currentUser.id ≠ targetUserId) :
    updateUser users departments currentUser targetUserId deactivatePayload =
      .ok { target with is_active := false } := by
  have hneq : target.id ≠ currentUser.id := by
    rw [findUserById_id hFind]; exact Ne.symm hNe
  simp [updateUser, canUpdateUser, hFind, hLM, hStaff, hRep, hNe, hneq,
    deactivatePayload, payloadKeys, allFieldNames, hasField,
    getAllowedUpdateFields, baseFields, applyIdCard, applyDepartment,
    applyRole, applyReportsTo, autoAssignManager, applyPassword,
    applyBasicFields, applyRegionBranch]

/-- Witness for C10: `sampleManager` deactivates direct report
`sampleStaff`. -/
theorem manager_deactivates_direct_report_witness :
    updateUser teamStore [] sampleManager 10 deactivatePayload =
      .ok { sampleStaff with is_active := false } :=
  manager_deactivates_direct_report teamStore [] sampleManager sampleStaff
    10 rfl rfl rfl rfl (by decide)

end EMS

namespace EMS

/-- Claim C6 — For a `completed` activity owned by the requester: any
update that asks for a different status fails with the state error and
the activity is unchanged; an update omitting `status` (for example a
description edit) succeeds and keeps the status `completed`; consequently
every successful update of a completed activity still carries status
`completed`. -/
theorem completed_activity_status_frozen
    (acts : List DailyActivity) (actorId activityId : Nat)
    (activity : DailyActivity) (p : ActUpdatePayload)
    (hFind : findOwnActivity acts actorId activityId = some activity)
    (hC : activity.status = ActStatus.completed) :
    (∀ s, p.status = some s → s ≠ ActStatus.completed →
      updateDailyActivity acts actorId activityId p =
        .error ActUpdateError.completedLocked) ∧
    (∀ d, p.status = none → p.description = some d →
      updateDailyActivity acts actorId activityId p =
        .ok { activity with
          timeInterval := p.timeInterval.getD activity.timeInterval
          description := d
          status := ActStatus.completed }) ∧
    (∀ a', updateDailyActivity acts actorId activityId p = .ok a' →
      a'.status = ActStatus.completed) := by
  refine ⟨?_, ?_, ?_⟩
  · intro s hs hne
    simp [updateDailyActivity, hFind, hC, hs, hne]
  · intro d hsn hd
    simp [updateDailyActivity, hFind, hC, hsn, hd]
  · intro a' ha'
    rcases hs : p.status with _ | s
    · simp [updateDailyActivity, hFind, hs] at ha'
      split at ha'
      · simp at ha'
      · simp at ha'
        subst ha'
        simpa using hC
    · by_cases hsc : s = ActStatus.completed
      · simp [updateDailyActivity, hFind, hs, hsc] at ha'
        subst ha'
        rfl
      · simp [updateDailyActivity, hFind, hC, hs, hsc] at ha'

/-- Witness for C6 at the concrete completed activity: the status change
to `pending` is refused, the description-only edit goes through. -/
theorem completed_activity_status_frozen_witness :
    updateDailyActivity actStore 10 100
        ({ status := some ActStatus.pending } : ActUpdatePayload) =
      .error ActUpdateError.completedLocked ∧
    updateDailyActivity actStore 10 100
        ({ description := some "edited" } : ActUpdatePayload) =
      .ok { completedAct with description := "edited" } := by
  constructor
  · exact (completed_activity_status_frozen actStore 10 100 completedAct
      ({ status := some ActStatus.pending } : ActUpdatePayload) rfl rfl).1
      ActStatus.pending rfl (by decide)
  · have h := (completed_activity_status_frozen actStore 10 100 completedAct
      ({ description := some "edited" } : ActUpdatePayload) rfl rfl).2.1
      "edited" rfl rfl
    simpa using h

/-- Membership in the LINE_MANAGER post-filter forces the owner to report
to the acting manager. -/
theorem mem_lmPostFilter {users : List User} {actorId : Nat}
    {l : List DailyActivity} {a : DailyActivity}
    (h : a ∈ lmPostFilter users actorId l) :
    ∃ owner, findUserById users a.user = some owner ∧
      owner.reportsTo = some actorId := by
  have hp := (List.mem_filter.mp h).2
  rcases hOwner : findUserById users a.user with _ | owner
  · simp [hOwner] at hp
  · rcases hRep : owner.reportsTo with _ | r
    · simp [hOwner, hRep] at hp
    · simp [hOwner, hRep] at hp
      exact ⟨owner, rfl, by rw [hRep, hp]⟩

/-- Claim C7 — Whatever combination of date/status/region/branch/user
filters a LINE_MANAGER passes, every entry of a successful all-activities
listing is owned by a user whose `reportsTo` equals that manager's id in
the store at query time. -/
theorem lm_listing_only_direct_reports
    (users : List User) (acts : List DailyActivity) (actor : User)
    (q : ActQuery) (page limit : Nat) (out : List DailyActivity)
    (hRole : actor.role = Role.LINE_MANAGER)
    (hOk : getAllActivities users acts actor q page limit = .ok out)
    (a : DailyActivity) (hMem : a ∈ out) :
    ∃ owner, findUserById users a.user = some owner ∧
      owner.reportsTo = some actor.id := by
  simp [getAllActivities, hRole] at hOk
  repeat' split at hOk
  all_goals simp at hOk
  all_goals subst hOk
  all_goals (try (exact absurd hMem (by simp)))
  all_goals
    exact mem_lmPostFilter (by simpa [applyQueryFilters, hRole] using hMem)

end EMS

namespace EMS

/-- Witness for C7: with no filters, `sampleManager`'s listing over
`actStore` returns exactly the direct report's activity, whose owner
reports to the manager. -/
theorem lm_listing_only_direct_reports_witness :
    ∃ owner, findUserById listingUsers completedAct.user = some owner ∧
      owner.reportsTo = some sampleManager.id :=
  lm_listing_only_direct_reports listingUsers actStore sampleManager {} 1 20
    [completedAct] rfl rfl completedAct (by simp)

/-- Counterexample to claim C8 — the `GET /users/:id` pipeline consults
only the `selfOrAdmin` middleware; `getUser` never calls `canViewUser`
(roleUtils.js exports it but no controller imports it), so a LINE_MANAGER
receives the record of `otherStaff`, who reports to a different manager,
even though `canViewUser` is false for that pair. -/
theorem getUser_ignores_canView_cex :
    getUser readStore sampleManager 11 = .ok otherStaff ∧
    canViewUser sampleManager otherStaff = false := ⟨rfl, rfl⟩

/-- Claim C8 (amended) — The single-user read succeeds exactly when the
actor is the target or holds any admin role (SUPER_ADMIN or LINE_MANAGER,
regardless of the reporting line); a STAFF actor reading anyone else is
denied. -/
theorem getUser_self_or_any_admin
    (users : List User) (actor target : User) (targetId : Nat)
    (hFind : findUserById users targetId = some target) :
    (getUser users actor targetId = .ok target ↔
      (targetId = actor.id ∨ actor.role = Role.SUPER_ADMIN ∨
        actor.role = Role.LINE_MANAGER)) ∧
    (actor.role = Role.STAFF → targetId ≠ actor.id →
      getUser users actor targetId = .error GetUserError.accessDenied) := by
  constructor
  · constructor
    · intro h
      by_contra hn
      push_neg at hn
      obtain ⟨h1, h2, h3⟩ := hn
      simp [getUser, selfOrAdmin, h1, h2, h3] at h
    · intro h
      have hsoa : selfOrAdmin actor targetId = true := by
        rcases h with h | h | h <;> simp [selfOrAdmin, h]
      simp [getUser, hsoa, hFind]
  · intro hSt hNe
    simp [getUser, selfOrAdmin, hSt, hNe]

/-- Witness for the amended C8: the LINE_MANAGER reads the stranger's
record because any admin role passes `selfOrAdmin`. -/
theorem getUser_self_or_any_admin_witness :
    getUser readStore sampleManager 11 = .ok otherStaff :=
  (getUser_self_or_any_admin readStore sampleManager otherStaff 11 rfl).1.mpr
    (Or.inr (Or.inr rfl))

/-- Claim C9 (code bug) — No stored department can carry a designated line
manager (`Department.lineManager` is `none` on every document because the
schema in models/department.js declares no such path), so the
designated-manager branch of the auto-assignment
(userController.js:431–438) is dead: changing STAFF `sampleStaff`'s
department to department 2 re-assigns `reportsTo` to the *first active
LINE_MANAGER stored in that department* (`managerDept2`, id 3), not to any
designated manager as the claim requires. -/
theorem department_change_assigns_first_active_manager :
    Department.lineManager dept2 = none ∧
    updateUser deptChangeUsers [dept2] sampleSuper 10 deptChangePayload =
      .ok { sampleStaff with department := some 2, reportsTo := some 3 } :=
  ⟨rfl, rfl⟩

end EMS
